import Mathlib

/-!
# Verification of the `pipeline_derive` code generator

Shallow embedding of the `pipeline_derive` repository: the attribute
mini-language parser (`src/src/attributes.rs`), the attribute-aware code
generator (`src/src/pipeline.rs`), and the proc-macro entry point
(`src/pipeline_derive/src/lib.rs`), together with a denotational semantics of
the generated `process3`/`process4` methods.

Modelling conventions:
* `syn` syntax trees are modelled structurally (`Ty`, `PathSegment`,
  `Fields`, `Data`, `DeriveInput`), keeping exactly the distinctions the
  source code inspects.
* Rust `Option<T>` values flowing through the generated methods are Lean
  `Option α`; `Clone` is duplication of a pure value, so
  `self.field.as_ref().cloned()` denotes the field's `Option α` value itself.
* The behaviour of a generated method is given as a result together with a
  list of observable events: `println!` output and the invocation of each
  transformation step, in order.
* `u64` integer-literal parsing (`base10_parse::<u64>`) succeeds exactly on
  values below `2 ^ 64`.
-/

namespace PipelineDerive

/-! ## Attribute mini-language (src/src/attributes.rs) -/

/-- A literal, as in `syn::Lit`: the cases the parser distinguishes are
boolean literals, integer literals (carrying their base-10 value) and every
other literal kind. -/
inductive Lit where
  | bool (b : Bool)
  | int (n : Nat)
  | other (tag : Nat)
deriving DecidableEq, Repr

/-- An expression, as in `syn::Expr`: the parser only distinguishes literal
expressions from every other expression form. The `tag` keeps distinct
non-literal expressions distinct. -/
inductive Expr where
  | lit (l : Lit)
  | nonLit (tag : Nat)
deriving DecidableEq, Repr

/-- Errors produced by `PipelineAttributes::parse`. The first three mirror
the `syn::Error` messages built in `attributes.rs`; `intParseFailed` is the
error propagated by `int_lit.base10_parse::<u64>()?` when the literal's value
does not fit in a `u64`. -/
inductive AttrError where
  | expectedBoolForSkip
  | expectedIntForTimeout
  | timeoutRequiresValue
  | intParseFailed
deriving DecidableEq, Repr

/-- `PipelineAttributes` from `attributes.rs`: `skip` defaults to `false`,
`timeout` to `None`, and unrecognized key/value pairs are collected in
`others`. -/
structure PipelineAttributes where
  skip : Bool := false
  timeout : Option Nat := none
  others : List (String × Option Expr) := []
deriving DecidableEq, Repr

/-- One iteration of the `for pair in pairs` loop in
`PipelineAttributes::parse`: dispatch on the key string, handling `skip`
(bare key means `true`, otherwise a boolean literal is required), `timeout`
(an integer literal fitting `u64` is required) and unknown keys (collected
into `others`). -/
def parsePair (attrs : PipelineAttributes) (pair : String × Option Expr) :
    Except AttrError PipelineAttributes :=
  if pair.1 = "skip" then
    match pair.2 with
    | some (Expr.lit (Lit.bool b)) => Except.ok { attrs with skip := b }
    | some _ => Except.error AttrError.expectedBoolForSkip
    | none => Except.ok { attrs with skip := true }
  else if pair.1 = "timeout" then
    match pair.2 with
    | some (Expr.lit (Lit.int n)) =>
        if n < 2 ^ 64 then Except.ok { attrs with timeout := some n }
        else Except.error AttrError.intParseFailed
    | some _ => Except.error AttrError.expectedIntForTimeout
    | none => Except.error AttrError.timeoutRequiresValue
  else
    Except.ok { attrs with others := attrs.others ++ [pair] }

/-- The `for` loop of `PipelineAttributes::parse`: fold `parsePair` over the
comma-separated pairs, stopping at the first error. -/
def parseLoop (attrs : PipelineAttributes) :
    List (String × Option Expr) → Except AttrError PipelineAttributes
  | [] => Except.ok attrs
  | pair :: rest =>
    match parsePair attrs pair with
    | Except.ok a => parseLoop a rest
    | Except.error e => Except.error e

/-- `PipelineAttributes::parse`, starting from the `Default` attribute set.
The input is the already-tokenized list of `key` / `key = value` pairs inside
the `#[pipeline(...)]` attribute. -/
def PipelineAttributes.parse (pairs : List (String × Option Expr)) :
    Except AttrError PipelineAttributes :=
  parseLoop {} pairs

/-- Classifier for the action `parsePair` takes on one pair (proof device:
one exhaustive case analysis, reused by every lemma about the parser). -/
inductive KeyAction where
  | setSkip (b : Bool)
  | setTimeout (n : Nat)
  | addOther
  | fail (e : AttrError)
deriving DecidableEq, Repr

/-- The action taken by `parsePair` on a given pair. -/
def keyAction (pair : String × Option Expr) : KeyAction :=
  if pair.1 = "skip" then
    match pair.2 with
    | some (Expr.lit (Lit.bool b)) => KeyAction.setSkip b
    | some _ => KeyAction.fail AttrError.expectedBoolForSkip
    | none => KeyAction.setSkip true
  else if pair.1 = "timeout" then
    match pair.2 with
    | some (Expr.lit (Lit.int n)) =>
        if n < 2 ^ 64 then KeyAction.setTimeout n
        else KeyAction.fail AttrError.intParseFailed
    | some _ => KeyAction.fail AttrError.expectedIntForTimeout
    | none => KeyAction.fail AttrError.timeoutRequiresValue
  else KeyAction.addOther

/-- Spec-side predicate (for refinement comparison), following the spec's
words: attribute parsing fails exactly on `skip` given a value that is not a
boolean literal, `timeout` given a value that is not an integer literal, and
`timeout` given no value at all. This is the enumeration exactly as the claim
states it. -/
def specAttrFailureClaimed (p : String × Option Expr) : Bool :=
  if p.1 = "skip" then
    match p.2 with
    | some (Expr.lit (Lit.bool _)) => false
    | some _ => true
    | none => false
  else if p.1 = "timeout" then
    match p.2 with
    | some (Expr.lit (Lit.int _)) => false
    | some _ => true
    | none => true
  else false

/-- Spec-side predicate amended by the one extra failure case the code has:
a `timeout` integer literal whose value does not fit in a `u64`. -/
def specAttrFailure (p : String × Option Expr) : Bool :=
  if p.1 = "skip" then
    match p.2 with
    | some (Expr.lit (Lit.bool _)) => false
    | some _ => true
    | none => false
  else if p.1 = "timeout" then
    match p.2 with
    | some (Expr.lit (Lit.int n)) => decide (2 ^ 64 ≤ n)
    | some _ => true
    | none => true
  else false

/-- A pair's key is one of the two recognized keys, `skip` or `timeout`. -/
def recognizedKey (p : String × Option Expr) : Bool :=
  p.1 == "skip" || p.1 == "timeout"

/-- Map over the success value of an attribute-parse result. -/
def exMap (f : PipelineAttributes → PipelineAttributes) :
    Except AttrError PipelineAttributes → Except AttrError PipelineAttributes
  | Except.ok a => Except.ok (f a)
  | Except.error e => Except.error e

/-- A `#[pipeline(timeout = 18446744073709551616)]` attribute list: the value
is an integer literal, but exceeds `u64::MAX`. -/
def overflowPairs : List (String × Option Expr) :=
  [("timeout", some (Expr.lit (Lit.int 18446744073709551616)))]

/-! ## The `syn` syntax-tree fragment the generator inspects -/

mutual

/-- A Rust type, as in `syn::Type`: the generator only distinguishes path
types (`syn::TypePath`, a sequence of path segments) from every other type
form. -/
inductive Ty where
  | path (segments : List PathSegment)
  | notPath (tag : String)

/-- A path segment, as in `syn::PathSegment`: an identifier with its
generic-argument list. -/
inductive PathSegment where
  | mk (ident : String) (arguments : PathArguments)

/-- Generic arguments of a path segment, as in `syn::PathArguments`. -/
inductive PathArguments where
  | noArgs
  | angleBracketed (args : List GenericArgument)
  | parenthesized

/-- One generic argument, as in `syn::GenericArgument`: a type, or one of the
non-type argument forms (lifetime, const argument, ...). -/
inductive GenericArgument where
  | type (ty : Ty)
  | lifetime
  | constArg

end

/-- The identifier of a path segment. -/
def PathSegment.ident : PathSegment → String
  | PathSegment.mk i _ => i

/-- The generic-argument list of a path segment. -/
def PathSegment.arguments : PathSegment → PathArguments
  | PathSegment.mk _ a => a

/-- A struct field, as in `syn::Field`: an optional identifier and a type. -/
structure Field where
  ident : Option String
  ty : Ty

/-- The fields of a struct, as in `syn::Fields`. -/
inductive Fields where
  | named (fields : List Field)
  | unnamed (count : Nat)
  | unit

/-- The data of a derive input, as in `syn::Data`. -/
inductive Data where
  | struct (fields : Fields)
  | enum
  | union

/-- One predicate of a `where` clause. `cloneBound t` is the predicate
`t: Clone`; `other` stands for any pre-existing user-written predicate. -/
inductive WherePredicate where
  | cloneBound (ty : Ty)
  | other (tag : String)

/-- Generics of a derive input: its parameter list (abstract) and an optional
`where` clause holding a list of predicates. -/
structure Generics where
  params : List String
  whereClause : Option (List WherePredicate)

/-- A derive-macro input, as in `syn::DeriveInput`. -/
structure DeriveInput where
  ident : String
  generics : Generics
  data : Data

/-- The syntax node an error is attributed to (the span passed to
`Error::spanned` in `pipeline.rs`). -/
inductive Span where
  | structName
  | fieldNode
  | fieldTy
  | lastSegment
  | angleArgs
deriving DecidableEq, Repr

/-- A compile-time diagnostic: a message attached to a span, as built by
`Error::spanned` in `errors.rs`. -/
structure Error where
  span : Span
  message : String

/-- The generated `impl` block, as assembled by
`pipeline::pipeline_derive`: the struct name, the generics used for the
`impl` (with the appended `Clone` bound), the field identifier, the extracted
inner type, whether the `skip` stub bodies were emitted, and the `timeout`
value whose `println!` is injected into non-stub bodies. -/
structure GeneratedImpl where
  structName : String
  generics : Generics
  fieldIdent : String
  innerType : Ty
  skipStub : Bool
  timeoutMsg : Option Nat

/-- The inner-type extraction block of `pipeline::pipeline_derive`
(pipeline.rs lines 53-84): the field type must be a path type, its last
segment must be named `Option`, its arguments must be angle-bracketed, and
the first argument must be a type, which is returned. -/
def extractInner (ty : Ty) : Except Error Ty :=
  match ty with
  | Ty.path segments =>
    match segments.getLast? with
    | none => Except.error ⟨Span.fieldTy, "Malformed type path in field type"⟩
    | some lastSegment =>
      if lastSegment.ident = "Option" then
        match lastSegment.arguments with
        | PathArguments.angleBracketed args =>
          match args.head? with
          | some (GenericArgument.type t) => Except.ok t
          | _ => Except.error ⟨Span.angleArgs, "Expected Option<T> with concrete type"⟩
        | _ => Except.error ⟨Span.lastSegment, "Expected angle-bracketed generic arguments"⟩
      else Except.error ⟨Span.lastSegment, "Expected field of type Option<T>"⟩
  | Ty.notPath _ => Except.error ⟨Span.fieldTy, "Expected field of type Option<T>"⟩

/-- Clone the input generics and push a `#inner_type: Clone` predicate onto
the `where` clause, creating the clause when absent
(pipeline.rs lines 86-99). -/
def appendCloneBound (g : Generics) (innerType : Ty) : Generics :=
  match g.whereClause with
  | some preds => { g with whereClause := some (preds ++ [WherePredicate.cloneBound innerType]) }
  | none => { g with whereClause := some [WherePredicate.cloneBound innerType] }

/-- `pipeline::pipeline_derive` (pipeline.rs): validate that the input is a
struct with named fields and exactly one field, extract the field identifier
and the inner type of its `Option<T>` type, extend the generics with a
`Clone` bound, and describe the generated `impl` block. The emitted method
bodies are determined by `skipStub` and `timeoutMsg`; their behaviour is
given by `GeneratedImpl.runProcess3` / `GeneratedImpl.runProcess4`. -/
def pipeline_derive (input : DeriveInput) (attrs : PipelineAttributes) :
    Except Error GeneratedImpl :=
  match input.data with
  | Data.struct (Fields.named [field]) =>
    match field.ident with
    | none => Except.error ⟨Span.fieldNode, "Expected named field with identifier"⟩
    | some fieldIdent =>
      match extractInner field.ty with
      | Except.error e => Except.error e
      | Except.ok innerType =>
        Except.ok
          { structName := input.ident
          , generics := appendCloneBound input.generics innerType
          , fieldIdent := fieldIdent
          , innerType := innerType
          , skipStub := attrs.skip
          , timeoutMsg := attrs.timeout }
  | Data.struct (Fields.named _) =>
    Except.error ⟨Span.structName, "Expected a struct with exactly one named field"⟩
  | _ => Except.error ⟨Span.structName, "Expected a struct with named fields"⟩

/-! ## Behaviour of the generated methods -/

/-- An observable event during one invocation of a generated method: a line
printed by `println!`, or the invocation of the transformation step with the
given index (0-based). -/
inductive Event where
  | println (line : String)
  | stepCall (idx : Nat)
deriving DecidableEq, Repr

/-- One `.and_then(step)` link of the generated chain, with event recording:
if the current value is present the step is invoked on it (recording the
call), otherwise the step is skipped and `none` flows through. This is
exactly `Option::and_then` plus the observation of the call. -/
def stepEv {α : Type} (st : Option α × List Event) (i : Nat) (f : α → Option α) :
    Option α × List Event :=
  match st.1 with
  | none => (none, st.2)
  | some v => (f v, st.2 ++ [Event.stepCall i])

/-- The `println!("Pipeline timeout set to {} ms", #timeout)` statement
injected at the start of non-stub method bodies when `timeout` is set. -/
def timeoutEvents (t : Option Nat) : List Event :=
  match t with
  | some ms => [Event.println ("Pipeline timeout set to " ++ toString ms ++ " ms")]
  | none => []

/-- Behaviour of the generated `process3` on a struct whose single field
holds `field`: for a `skip` stub the body is `None` (no output, no step
invoked); otherwise the optional timeout line is printed and
`self.field.as_ref().cloned().and_then(f1).and_then(f2)` is evaluated
(cloning duplicates the pure value, so the chain starts from `field`). -/
def GeneratedImpl.runProcess3 {α : Type} (gi : GeneratedImpl) (field : Option α)
    (f1 f2 : α → Option α) : Option α × List Event :=
  if gi.skipStub then (none, [])
  else stepEv (stepEv (field, timeoutEvents gi.timeoutMsg) 0 f1) 1 f2

/-- Behaviour of the generated `process4`, with three chained steps. -/
def GeneratedImpl.runProcess4 {α : Type} (gi : GeneratedImpl) (field : Option α)
    (f1 f2 f3 : α → Option α) : Option α × List Event :=
  if gi.skipStub then (none, [])
  else stepEv (stepEv (stepEv (field, timeoutEvents gi.timeoutMsg) 0 f1) 1 f2) 2 f3

/-- The lines printed during a method invocation, in order. -/
def printlns (evs : List Event) : List String :=
  evs.filterMap fun e => match e with
    | Event.println s => some s
    | Event.stepCall _ => none

/-- The indices of the transformation steps invoked during a method
invocation, in order. -/
def stepCalls (evs : List Event) : List Nat :=
  evs.filterMap fun e => match e with
    | Event.println _ => none
    | Event.stepCall i => some i

/-! ## The proc-macro entry point (src/pipeline_derive/src/lib.rs) -/

/-- `extract_option_inner` from lib.rs: return the first angle-bracketed
type argument of a path type whose last segment is named `Option`, and
`none` otherwise. -/
def extract_option_inner (ty : Ty) : Option Ty :=
  match ty with
  | Ty.path segments =>
    match segments.getLast? with
    | some seg =>
      if seg.ident = "Option" then
        match seg.arguments with
        | PathArguments.angleBracketed args =>
          match args.head? with
          | some (GenericArgument.type innerTy) => some innerTy
          | _ => none
        | _ => none
      else none
    | none => none
  | Ty.notPath _ => none

/-- The `impl` block generated by the proc-macro entry point in lib.rs:
struct name, the generics forwarded verbatim (no `Clone` bound is added),
the field identifier and the extracted inner type. -/
structure LibImpl where
  name : String
  generics : Generics
  fieldIdent : String
  innerType : Ty

/-- Outcome of one invocation of the `#[proc_macro_derive(Pipeline)]`
function in lib.rs: an emitted token stream, a `to_compile_error()` token
stream, or a panic of the generator itself. -/
inductive LibOutcome where
  | tokens (gi : LibImpl)
  | compileError (msg : String)
  | panicked (msg : String)

/-- The `pipeline_derive` proc-macro entry point in lib.rs: only structs
with exactly one named field are supported (compile errors otherwise); the
field identifier is `unwrap`ped and the field type must be `Option<T>`,
where failure of `extract_option_inner` reaches the
`unwrap_or_else(|| panic!(...))` call (lib.rs lines 107-113). -/
def lib_pipeline_derive (input : DeriveInput) : LibOutcome :=
  match input.data with
  | Data.struct fields =>
    match fields with
    | Fields.named [field] =>
      match field.ident with
      | some fieldIdent =>
        match extract_option_inner field.ty with
        | some innerType =>
          LibOutcome.tokens
            { name := input.ident
            , generics := input.generics
            , fieldIdent := fieldIdent
            , innerType := innerType }
        | none =>
          LibOutcome.panicked
            ("Expected the field `" ++ fieldIdent ++ "` to be of type Option<T>")
      | none => LibOutcome.panicked "called Option::unwrap on a None value"
    | _ =>
      LibOutcome.compileError
        "Pipeline derive only supports structs with exactly one named field"
  | _ => LibOutcome.compileError "Pipeline derive only supports structs"

/-! ## Concrete inputs used by counterexamples and witnesses -/

/-- The type `i32`. -/
def tyI32 : Ty := Ty.path [PathSegment.mk "i32" PathArguments.noArgs]

/-- The type `i64`. -/
def tyI64 : Ty := Ty.path [PathSegment.mk "i64" PathArguments.noArgs]

/-- The type `Option<i32>`. -/
def tyOptionI32 : Ty :=
  Ty.path [PathSegment.mk "Option" (PathArguments.angleBracketed [GenericArgument.type tyI32])]

/-- `struct SingleFieldPipeline { value: Option<i32> }`, as in the example
binary. -/
def exInput : DeriveInput :=
  { ident := "SingleFieldPipeline"
  , generics := { params := [], whereClause := none }
  , data := Data.struct (Fields.named [{ ident := some "value", ty := tyOptionI32 }]) }

/-- The generator's output for `exInput` with default attributes. -/
def exImpl : GeneratedImpl :=
  { structName := "SingleFieldPipeline"
  , generics := { params := [], whereClause := some [WherePredicate.cloneBound tyI32] }
  , fieldIdent := "value"
  , innerType := tyI32
  , skipStub := false
  , timeoutMsg := none }

/-- A struct whose single field has the malformed wrapper type
`Option<i32, i64>`: two generic arguments instead of exactly one. -/
def twoArgInput : DeriveInput :=
  { ident := "S"
  , generics := { params := [], whereClause := none }
  , data := Data.struct (Fields.named
      [{ ident := some "value"
       , ty := Ty.path [PathSegment.mk "Option" (PathArguments.angleBracketed
           [GenericArgument.type tyI32, GenericArgument.type tyI64])] }]) }

/-- An enum input (violates "must be a struct"). -/
def enumInput : DeriveInput :=
  { ident := "E", generics := { params := [], whereClause := none }, data := Data.enum }

/-- A tuple-struct input (violates "must have named fields"). -/
def tupleInput : DeriveInput :=
  { ident := "T"
  , generics := { params := [], whereClause := none }
  , data := Data.struct (Fields.unnamed 2) }

/-- A struct whose single field wraps `Option<i32, i64>` but is otherwise
well-shaped; used to show check (e) accepts extra generic arguments. -/
def extraArgInput : DeriveInput :=
  { ident := "W"
  , generics := { params := [], whereClause := none }
  , data := Data.struct (Fields.named
      [{ ident := some "data"
       , ty := Ty.path [PathSegment.mk "Option" (PathArguments.angleBracketed
           [GenericArgument.type tyI64, GenericArgument.type tyI32])] }]) }

/-- `struct BadStruct { x: i32 }`: one named field, not an `Option`. -/
def nonOptionInput : DeriveInput :=
  { ident := "BadStruct"
  , generics := { params := [], whereClause := none }
  , data := Data.struct (Fields.named [{ ident := some "x", ty := tyI32 }]) }

/-- `struct V { data: Vec<i32> }`: one named field of a non-`Option` path
type. -/
def vecFieldInput : DeriveInput :=
  { ident := "V"
  , generics := { params := [], whereClause := none }
  , data := Data.struct (Fields.named
      [{ ident := some "data"
       , ty := Ty.path [PathSegment.mk "Vec" (PathArguments.angleBracketed
           [GenericArgument.type tyI32])] }]) }

/-- A struct with two named fields. -/
def twoFieldInput : DeriveInput :=
  { ident := "MultiFieldPipeline"
  , generics := { params := [], whereClause := none }
  , data := Data.struct (Fields.named
      [ { ident := some "data", ty := tyOptionI32 }
      , { ident := some "info", ty := tyOptionI32 } ]) }

/-- A generic struct `struct G<T> where T: Debug { value: Option<T> }`. -/
def genericInput : DeriveInput :=
  { ident := "G"
  , generics := { params := ["T"], whereClause := some [WherePredicate.other "T: Debug"] }
  , data := Data.struct (Fields.named
      [{ ident := some "value"
       , ty := Ty.path [PathSegment.mk "Option" (PathArguments.angleBracketed
           [GenericArgument.type (Ty.path [PathSegment.mk "T" PathArguments.noArgs])])] }]) }

/-- The generator's output for `exInput` with `timeout = 500`. -/
def exImplTimeout : GeneratedImpl := { exImpl with timeoutMsg := some 500 }

/-- The generator's output for `genericInput` with default attributes. -/
def exImplGeneric : GeneratedImpl :=
  { structName := "G"
  , generics :=
      { params := ["T"]
      , whereClause := some
          [ WherePredicate.other "T: Debug"
          , WherePredicate.cloneBound (Ty.path [PathSegment.mk "T" PathArguments.noArgs]) ] }
  , fieldIdent := "value"
  , innerType := Ty.path [PathSegment.mk "T" PathArguments.noArgs]
  , skipStub := false
  , timeoutMsg := none }

/-! ## Lemmas about the attribute parser -/

theorem parsePair_eq (a : PipelineAttributes) (p : String × Option Expr) :
    parsePair a p = (match keyAction p with
      | KeyAction.setSkip b => Except.ok { a with skip := b }
      | KeyAction.setTimeout n => Except.ok { a with timeout := some n }
      | KeyAction.addOther => Except.ok { a with others := a.others ++ [p] }
      | KeyAction.fail e => Except.error e) := by
  obtain ⟨k, v⟩ := p
  by_cases h1 : k = "skip"
  · subst h1
    cases v with
    | none => simp [parsePair, keyAction]
    | some e =>
      cases e with
      | lit l => cases l <;> simp [parsePair, keyAction]
      | nonLit t => simp [parsePair, keyAction]
  · by_cases h2 : k = "timeout"
    · subst h2
      cases v with
      | none => simp [parsePair, keyAction, h1]
      | some e =>
        cases e with
        | lit l =>
          cases l with
          | bool b => simp [parsePair, keyAction, h1]
          | int n =>
            simp only [parsePair, keyAction, h1]
            norm_num
            split <;> rfl
          | other t => simp [parsePair, keyAction, h1]
        | nonLit t => simp [parsePair, keyAction, h1]
    · simp [parsePair, keyAction, h1, h2]

theorem keyAction_addOther_iff (p : String × Option Expr) :
    keyAction p = KeyAction.addOther ↔ recognizedKey p = false := by
  obtain ⟨k, v⟩ := p
  by_cases h1 : k = "skip"
  · subst h1
    cases v with
    | none => simp [keyAction, recognizedKey]
    | some e =>
      cases e with
      | lit l =>
        cases l with
        | bool b => simp [keyAction, recognizedKey]
        | int n => simp [keyAction, recognizedKey]
        | other t => simp [keyAction, recognizedKey]
      | nonLit t => simp [keyAction, recognizedKey]
  · by_cases h2 : k = "timeout"
    · subst h2
      cases v with
      | none => simp [keyAction, recognizedKey, h1]
      | some e =>
        cases e with
        | lit l =>
          cases l with
          | bool b => simp [keyAction, recognizedKey, h1]
          | int n =>
            simp only [keyAction, recognizedKey, h1]
            norm_num
            split <;> simp
          | other t => simp [keyAction, recognizedKey, h1]
        | nonLit t => simp [keyAction, recognizedKey, h1]
    · simp [keyAction, recognizedKey, h1, h2]

theorem keyAction_fail_iff (p : String × Option Expr) :
    (∃ e, keyAction p = KeyAction.fail e) ↔ specAttrFailure p = true := by
  obtain ⟨k, v⟩ := p
  by_cases h1 : k = "skip"
  · subst h1
    cases v with
    | none => simp [keyAction, specAttrFailure]
    | some e =>
      cases e with
      | lit l => cases l <;> simp [keyAction, specAttrFailure]
      | nonLit t => simp [keyAction, specAttrFailure]
  · by_cases h2 : k = "timeout"
    · subst h2
      cases v with
      | none => simp [keyAction, specAttrFailure, h1]
      | some e =>
        cases e with
        | lit l =>
          cases l with
          | bool b => simp [keyAction, specAttrFailure, h1]
          | int n =>
            simp only [keyAction, specAttrFailure, h1]
            norm_num
            constructor
            · rintro ⟨e, he⟩
              split at he
              · exact absurd he (by simp)
              · omega
            · intro hn
              refine ⟨AttrError.intParseFailed, ?_⟩
              rw [if_neg (by omega)]
          | other t => simp [keyAction, specAttrFailure, h1]
        | nonLit t => simp [keyAction, specAttrFailure, h1]
    · simp [keyAction, specAttrFailure, h1, h2]

theorem parseLoop_append (xs ys : List (String × Option Expr)) :
    ∀ a, parseLoop a (xs ++ ys) =
      (match parseLoop a xs with
        | Except.ok b => parseLoop b ys
        | Except.error e => Except.error e) := by
  induction xs with
  | nil => intro a; rfl
  | cons p rest ih =>
    intro a
    simp only [List.cons_append, parseLoop]
    cases parsePair a p <;> simp [ih]

theorem parseLoop_others_shift (xs : List (String × Option Expr)) :
    ∀ s t o, parseLoop ⟨s, t, o⟩ xs =
      exMap (fun b => ⟨b.skip, b.timeout, o ++ b.others⟩) (parseLoop ⟨s, t, []⟩ xs) := by
  induction xs with
  | nil => intro s t o; simp [parseLoop, exMap]
  | cons p rest ih =>
    intro s t o
    simp only [parseLoop, parsePair_eq]
    cases hk : keyAction p with
    | setSkip b => exact ih b t o
    | setTimeout n => exact ih s (some n) o
    | addOther =>
      show parseLoop ⟨s, t, o ++ [p]⟩ rest
        = exMap _ (parseLoop ⟨s, t, [] ++ [p]⟩ rest)
      rw [ih s t (o ++ [p]), List.nil_append, ih s t [p]]
      cases parseLoop ⟨s, t, []⟩ rest <;> simp [exMap]
    | fail e => simp [exMap]

theorem parseLoop_filter_recognized (xs : List (String × Option Expr)) :
    ∀ s t o, parseLoop ⟨s, t, o⟩ (xs.filter recognizedKey) =
      exMap (fun b => ⟨b.skip, b.timeout, o⟩) (parseLoop ⟨s, t, o⟩ xs) := by
  induction xs with
  | nil => intro s t o; simp [parseLoop, exMap]
  | cons p rest ih =>
    intro s t o
    by_cases hr : recognizedKey p = true
    · rw [List.filter_cons_of_pos hr]
      simp only [parseLoop, parsePair_eq]
      cases hk : keyAction p with
      | setSkip b => exact ih b t o
      | setTimeout n => exact ih s (some n) o
      | addOther =>
        rw [(keyAction_addOther_iff p).mp hk] at hr
        exact absurd hr (by simp)
      | fail e => simp [exMap]
    · have hr' : recognizedKey p = false := by simpa using hr
      have hk : keyAction p = KeyAction.addOther := (keyAction_addOther_iff p).mpr hr'
      rw [List.filter_cons_of_neg (by simp [hr'])]
      conv_rhs => rw [parseLoop]
      rw [parsePair_eq, hk]
      show parseLoop ⟨s, t, o⟩ (rest.filter recognizedKey)
        = exMap _ (parseLoop ⟨s, t, o ++ [p]⟩ rest)
      rw [ih s t o, parseLoop_others_shift rest s t o,
        parseLoop_others_shift rest s t (o ++ [p])]
      cases parseLoop ⟨s, t, []⟩ rest <;> simp [exMap]

theorem parseLoop_others_eq (xs : List (String × Option Expr)) :
    ∀ s t o b, parseLoop ⟨s, t, o⟩ xs = Except.ok b →
      b.others = o ++ xs.filter (fun p => !recognizedKey p) := by
  induction xs with
  | nil =>
    intro s t o b h
    simp only [parseLoop, Except.ok.injEq] at h
    subst h
    simp
  | cons p rest ih =>
    intro s t o b h
    simp only [parseLoop, parsePair_eq] at h
    cases hk : keyAction p with
    | setSkip b' =>
      rw [hk] at h
      have hr : recognizedKey p = true := by
        rcases Bool.eq_false_or_eq_true (recognizedKey p) with ht | hf
        · exact ht
        · rw [← keyAction_addOther_iff] at hf
          rw [hk] at hf
          exact absurd hf (by simp)
      rw [List.filter_cons_of_neg (by simp [hr])]
      exact ih b' t o b h
    | setTimeout n =>
      rw [hk] at h
      have hr : recognizedKey p = true := by
        rcases Bool.eq_false_or_eq_true (recognizedKey p) with ht | hf
        · exact ht
        · rw [← keyAction_addOther_iff] at hf
          rw [hk] at hf
          exact absurd hf (by simp)
      rw [List.filter_cons_of_neg (by simp [hr])]
      exact ih s (some n) o b h
    | addOther =>
      rw [hk] at h
      have hr : recognizedKey p = false := (keyAction_addOther_iff p).mp hk
      rw [List.filter_cons_of_pos (by simp [hr])]
      have := ih s t (o ++ [p]) b h
      simpa [List.append_assoc] using this
    | fail e =>
      rw [hk] at h
      exact absurd h (by simp)

theorem parseLoop_ok_iff (xs : List (String × Option Expr)) :
    ∀ a, (∃ b, parseLoop a xs = Except.ok b) ↔ ∀ p ∈ xs, specAttrFailure p = false := by
  induction xs with
  | nil => intro a; simp [parseLoop]
  | cons p rest ih =>
    intro a
    simp only [parseLoop, parsePair_eq, List.mem_cons]
    cases hk : keyAction p with
    | setSkip b =>
      have hp : specAttrFailure p = false := by
        rcases Bool.eq_false_or_eq_true (specAttrFailure p) with ht | hf
        · obtain ⟨e, he⟩ := (keyAction_fail_iff p).mpr ht
          rw [hk] at he
          exact absurd he (by simp)
        · exact hf
      simp only [hp]
      rw [ih { a with skip := b }]
      constructor
      · intro h q hq
        rcases hq with hq | hq
        · subst hq; exact hp
        · exact h q hq
      · intro h q hq
        exact h q (Or.inr hq)
    | setTimeout n =>
      have hp : specAttrFailure p = false := by
        rcases Bool.eq_false_or_eq_true (specAttrFailure p) with ht | hf
        · obtain ⟨e, he⟩ := (keyAction_fail_iff p).mpr ht
          rw [hk] at he
          exact absurd he (by simp)
        · exact hf
      rw [ih { a with timeout := some n }]
      constructor
      · intro h q hq
        rcases hq with hq | hq
        · subst hq; exact hp
        · exact h q hq
      · intro h q hq
        exact h q (Or.inr hq)
    | addOther =>
      have hp : specAttrFailure p = false := by
        rcases Bool.eq_false_or_eq_true (specAttrFailure p) with ht | hf
        · obtain ⟨e, he⟩ := (keyAction_fail_iff p).mpr ht
          rw [hk] at he
          exact absurd he (by simp)
        · exact hf
      rw [ih { a with others := a.others ++ [p] }]
      constructor
      · intro h q hq
        rcases hq with hq | hq
        · subst hq; exact hp
        · exact h q hq
      · intro h q hq
        exact h q (Or.inr hq)
    | fail e =>
      have hp : specAttrFailure p = true := (keyAction_fail_iff p).mp ⟨e, hk⟩
      constructor
      · rintro ⟨b, hb⟩
        exact absurd hb (by simp)
      · intro h
        have := h p (Or.inl rfl)
        rw [hp] at this
        exact absurd this (by simp)

/-! ## Lemmas about the code generator and the generated methods -/

theorem pipeline_derive_ok_inv {input : DeriveInput} {attrs : PipelineAttributes}
    {gi : GeneratedImpl} (h : pipeline_derive input attrs = Except.ok gi) :
    gi.skipStub = attrs.skip ∧ gi.timeoutMsg = attrs.timeout ∧
    gi.generics.params = input.generics.params ∧
    gi.generics.whereClause = some (input.generics.whereClause.getD []
      ++ [WherePredicate.cloneBound gi.innerType]) := by
  unfold pipeline_derive at h
  split at h
  · rename_i field heq
    cases hid : field.ident with
    | none =>
      simp only [hid] at h
      exact Except.noConfusion h
    | some fid =>
      simp only [hid] at h
      cases hex : extractInner field.ty with
      | error e =>
        simp only [hex] at h
        exact Except.noConfusion h
      | ok innerType =>
        simp only [hex, Except.ok.injEq] at h
        subst h
        refine ⟨rfl, rfl, ?_, ?_⟩
        · cases hw : input.generics.whereClause <;> simp [appendCloneBound, hw]
        · cases hw : input.generics.whereClause <;> simp [appendCloneBound, hw]
  · exact Except.noConfusion h
  · exact Except.noConfusion h

theorem printlns_append (xs ys : List Event) :
    printlns (xs ++ ys) = printlns xs ++ printlns ys := by
  simp [printlns, List.filterMap_append]

theorem stepCalls_append (xs ys : List Event) :
    stepCalls (xs ++ ys) = stepCalls xs ++ stepCalls ys := by
  simp [stepCalls, List.filterMap_append]

theorem stepCalls_timeoutEvents (t : Option Nat) : stepCalls (timeoutEvents t) = [] := by
  cases t <;> rfl

theorem stepCalls_nil : stepCalls [] = [] := rfl

theorem stepCalls_single (i : Nat) : stepCalls [Event.stepCall i] = [i] := rfl

theorem stepCalls_cons_call (i : Nat) (evs : List Event) :
    stepCalls (Event.stepCall i :: evs) = i :: stepCalls evs := rfl

theorem stepEv_events {α : Type} (st : Option α × List Event) (i : Nat) (f : α → Option α) :
    ∃ tail, (stepEv st i f).2 = st.2 ++ tail ∧ printlns tail = [] := by
  cases hs : st.1 with
  | none => exact ⟨[], by simp [stepEv, hs], rfl⟩
  | some v => exact ⟨[Event.stepCall i], by simp [stepEv, hs], rfl⟩

theorem runProcess3_events {α : Type} (gi : GeneratedImpl) (hss : gi.skipStub = false)
    (field : Option α) (f1 f2 : α → Option α) :
    ∃ tail, (gi.runProcess3 field f1 f2).2 = timeoutEvents gi.timeoutMsg ++ tail ∧
      printlns tail = [] := by
  obtain ⟨t1, h1, p1⟩ := stepEv_events (field, timeoutEvents gi.timeoutMsg) 0 f1
  obtain ⟨t2, h2, p2⟩ := stepEv_events (stepEv (field, timeoutEvents gi.timeoutMsg) 0 f1) 1 f2
  refine ⟨t1 ++ t2, ?_, ?_⟩
  · simp only [GeneratedImpl.runProcess3, hss]
    rw [if_neg (by simp), h2, h1, List.append_assoc]
  · rw [printlns_append, p1, p2]
    rfl

theorem runProcess4_events {α : Type} (gi : GeneratedImpl) (hss : gi.skipStub = false)
    (field : Option α) (f1 f2 f3 : α → Option α) :
    ∃ tail, (gi.runProcess4 field f1 f2 f3).2 = timeoutEvents gi.timeoutMsg ++ tail ∧
      printlns tail = [] := by
  obtain ⟨t1, h1, p1⟩ := stepEv_events (field, timeoutEvents gi.timeoutMsg) 0 f1
  obtain ⟨t2, h2, p2⟩ := stepEv_events (stepEv (field, timeoutEvents gi.timeoutMsg) 0 f1) 1 f2
  obtain ⟨t3, h3, p3⟩ :=
    stepEv_events (stepEv (stepEv (field, timeoutEvents gi.timeoutMsg) 0 f1) 1 f2) 2 f3
  refine ⟨t1 ++ (t2 ++ t3), ?_, ?_⟩
  · simp only [GeneratedImpl.runProcess4, hss]
    rw [if_neg (by simp), h3, h2, h1]
    simp [List.append_assoc]
  · rw [printlns_append, printlns_append, p1, p2, p3]
    rfl

/-! ## Claim theorems -/

/-- C1: for every generated struct with `skip` absent or false, whose single
field holds present inner value `v`, `process3(f1, f2)` with a succeeding
first step returns the second step applied to its output (so with all steps
succeeding it returns `f2 (f1 v)`), invoking steps 0 and 1 in order;
`process4` analogously returns `f3` applied to the output of the first two
succeeding steps. Whenever the field's value is absent or a step returns no
value, the method returns `none` and no later step is invoked. -/
theorem pipeline_process_shortcircuit {α : Type} (input : DeriveInput)
    (attrs : PipelineAttributes) (gi : GeneratedImpl)
    (hok : pipeline_derive input attrs = Except.ok gi) (hskip : attrs.skip = false)
    (field : Option α) (f1 f2 f3 : α → Option α) :
    (∀ v w, field = some v → f1 v = some w →
      (gi.runProcess3 field f1 f2).1 = f2 w ∧
      stepCalls (gi.runProcess3 field f1 f2).2 = [0, 1]) ∧
    (field = none →
      (gi.runProcess3 field f1 f2).1 = none ∧
      stepCalls (gi.runProcess3 field f1 f2).2 = []) ∧
    (∀ v, field = some v → f1 v = none →
      (gi.runProcess3 field f1 f2).1 = none ∧
      stepCalls (gi.runProcess3 field f1 f2).2 = [0]) ∧
    (∀ v w u, field = some v → f1 v = some w → f2 w = some u →
      (gi.runProcess4 field f1 f2 f3).1 = f3 u ∧
      stepCalls (gi.runProcess4 field f1 f2 f3).2 = [0, 1, 2]) ∧
    (field = none →
      (gi.runProcess4 field f1 f2 f3).1 = none ∧
      stepCalls (gi.runProcess4 field f1 f2 f3).2 = []) ∧
    (∀ v, field = some v → f1 v = none →
      (gi.runProcess4 field f1 f2 f3).1 = none ∧
      stepCalls (gi.runProcess4 field f1 f2 f3).2 = [0]) ∧
    (∀ v w, field = some v → f1 v = some w → f2 w = none →
      (gi.runProcess4 field f1 f2 f3).1 = none ∧
      stepCalls (gi.runProcess4 field f1 f2 f3).2 = [0, 1]) := by
  have hss : gi.skipStub = false := (pipeline_derive_ok_inv hok).1.trans hskip
  refine ⟨?_, ?_, ?_, ?_, ?_, ?_, ?_⟩
  · rintro v w rfl hf1
    simp [GeneratedImpl.runProcess3, hss, stepEv, hf1, stepCalls_append,
      stepCalls_timeoutEvents, stepCalls_nil, stepCalls_single, stepCalls_cons_call]
  · rintro rfl
    simp [GeneratedImpl.runProcess3, hss, stepEv, stepCalls_append,
      stepCalls_timeoutEvents, stepCalls_nil, stepCalls_single, stepCalls_cons_call]
  · rintro v rfl hf1
    simp [GeneratedImpl.runProcess3, hss, stepEv, hf1, stepCalls_append,
      stepCalls_timeoutEvents, stepCalls_nil, stepCalls_single, stepCalls_cons_call]
  · rintro v w u rfl hf1 hf2
    simp [GeneratedImpl.runProcess4, hss, stepEv, hf1, hf2, stepCalls_append,
      stepCalls_timeoutEvents, stepCalls_nil, stepCalls_single, stepCalls_cons_call]
  · rintro rfl
    simp [GeneratedImpl.runProcess4, hss, stepEv, stepCalls_append,
      stepCalls_timeoutEvents, stepCalls_nil, stepCalls_single, stepCalls_cons_call]
  · rintro v rfl hf1
    simp [GeneratedImpl.runProcess4, hss, stepEv, hf1, stepCalls_append,
      stepCalls_timeoutEvents, stepCalls_nil, stepCalls_single, stepCalls_cons_call]
  · rintro v w rfl hf1 hf2
    simp [GeneratedImpl.runProcess4, hss, stepEv, hf1, hf2, stepCalls_append,
      stepCalls_timeoutEvents, stepCalls_nil, stepCalls_single, stepCalls_cons_call]

/-- Witness for C1: the example struct with field value `Some(7)` and the
example steps (`x + 3`, then `if x > 10 then x * 2 else None`): step 0 yields
`10`, and `process3` returns the second step applied to `10` (which is
`none`), both steps having been invoked. -/
theorem pipeline_process_shortcircuit_witness :
    (exImpl.runProcess3 (some 7) (fun x => some (x + 3))
        (fun x : Nat => if x > 10 then some (x * 2) else none)).1
      = (if 10 > 10 then some (10 * 2) else none) ∧
    stepCalls (exImpl.runProcess3 (some 7) (fun x => some (x + 3))
        (fun x : Nat => if x > 10 then some (x * 2) else none)).2 = [0, 1] :=
  (pipeline_process_shortcircuit exInput {} exImpl rfl rfl (some 7)
    (fun x => some (x + 3)) (fun x : Nat => if x > 10 then some (x * 2) else none)
    (fun _ => none)).1 7 10 rfl rfl

/-- C2: for every struct meeting the shape contract and `skip = true`, the
generated `process3` and `process4` return `none` for every field state and
all supplied steps, produce no output, and invoke none of the supplied
steps. -/
theorem pipeline_skip_stubs {α : Type} (input : DeriveInput)
    (attrs : PipelineAttributes) (gi : GeneratedImpl)
    (hok : pipeline_derive input attrs = Except.ok gi) (hskip : attrs.skip = true)
    (field : Option α) (f1 f2 f3 : α → Option α) :
    gi.runProcess3 field f1 f2 = (none, []) ∧
    gi.runProcess4 field f1 f2 f3 = (none, []) := by
  have hss : gi.skipStub = true := (pipeline_derive_ok_inv hok).1.trans hskip
  constructor <;> simp [GeneratedImpl.runProcess3, GeneratedImpl.runProcess4, hss]

/-- Witness for C2: the example struct derived with `skip = true` returns
`none` from `process3` with no events, even on a present value and
always-succeeding steps. -/
theorem pipeline_skip_stubs_witness :
    ({ exImpl with skipStub := true } : GeneratedImpl).runProcess3 (some 7)
        (fun x : Nat => some (x + 3)) (fun x => some (x * 2)) = (none, []) :=
  (pipeline_skip_stubs exInput { skip := true } { exImpl with skipStub := true }
    rfl rfl (some 7) (fun x : Nat => some (x + 3)) (fun x => some (x * 2))
    (fun _ => none)).1

/-- C7: for every annotated struct accepted by the generator, the generated
`impl` block forwards the struct's generic parameters unchanged and its
`where` clause extended at the end with the `inner_type: Clone` predicate,
existing predicates preserved in order. -/
theorem generics_clone_bound (input : DeriveInput) (attrs : PipelineAttributes)
    (gi : GeneratedImpl) (hok : pipeline_derive input attrs = Except.ok gi) :
    gi.generics.params = input.generics.params ∧
    gi.generics.whereClause = some (input.generics.whereClause.getD []
      ++ [WherePredicate.cloneBound gi.innerType]) :=
  ⟨(pipeline_derive_ok_inv hok).2.2.1, (pipeline_derive_ok_inv hok).2.2.2⟩

/-- Witness for C7: for `struct G<T> where T: Debug { value: Option<T> }`
the generated impl keeps the parameter `T` and the `T: Debug` predicate and
appends `T: Clone`. -/
theorem generics_clone_bound_witness :
    exImplGeneric.generics.params = genericInput.generics.params ∧
    exImplGeneric.generics.whereClause = some (genericInput.generics.whereClause.getD []
      ++ [WherePredicate.cloneBound exImplGeneric.innerType]) :=
  generics_clone_bound genericInput {} exImplGeneric rfl

/-- C8: with `timeout = 500` set (and `skip` false), every invocation of a
generated non-stub method first prints a line containing `500` before any
step runs (the line is the head of the event list, and no other line is
printed); with `timeout` omitted, no line is printed at all. -/
theorem timeout_announcement {α : Type} (input : DeriveInput)
    (attrs : PipelineAttributes) (gi : GeneratedImpl)
    (hok : pipeline_derive input attrs = Except.ok gi) (hskip : attrs.skip = false)
    (field : Option α) (f1 f2 f3 : α → Option α) :
    (attrs.timeout = some 500 →
      (∃ rest line, (gi.runProcess3 field f1 f2).2 = Event.println line :: rest ∧
        (∃ pre post, line = pre ++ "500" ++ post) ∧ printlns rest = []) ∧
      (∃ rest line, (gi.runProcess4 field f1 f2 f3).2 = Event.println line :: rest ∧
        (∃ pre post, line = pre ++ "500" ++ post) ∧ printlns rest = [])) ∧
    (attrs.timeout = none →
      printlns (gi.runProcess3 field f1 f2).2 = [] ∧
      printlns (gi.runProcess4 field f1 f2 f3).2 = []) := by
  obtain ⟨hss0, ht, -, -⟩ := pipeline_derive_ok_inv hok
  have hss : gi.skipStub = false := hss0.trans hskip
  constructor
  · intro h500
    have htm : gi.timeoutMsg = some 500 := ht.trans h500
    constructor
    · obtain ⟨tail, he, hp⟩ := runProcess3_events gi hss field f1 f2
      refine ⟨tail, "Pipeline timeout set to " ++ toString (500 : Nat) ++ " ms", ?_,
        ⟨"Pipeline timeout set to ", " ms", by rfl⟩, hp⟩
      rw [he, htm]
      rfl
    · obtain ⟨tail, he, hp⟩ := runProcess4_events gi hss field f1 f2 f3
      refine ⟨tail, "Pipeline timeout set to " ++ toString (500 : Nat) ++ " ms", ?_,
        ⟨"Pipeline timeout set to ", " ms", by rfl⟩, hp⟩
      rw [he, htm]
      rfl
  · intro hnone
    have htm : gi.timeoutMsg = none := ht.trans hnone
    constructor
    · obtain ⟨tail, he, hp⟩ := runProcess3_events gi hss field f1 f2
      rw [he, htm, printlns_append, hp]
      rfl
    · obtain ⟨tail, he, hp⟩ := runProcess4_events gi hss field f1 f2 f3
      rw [he, htm, printlns_append, hp]
      rfl

/-- Witness for C8: the example struct derived with `timeout = 500` prints
the announcement line (containing `500`) first on a `process3` call. -/
theorem timeout_announcement_witness :
    ∃ rest line,
      (exImplTimeout.runProcess3 (some 7) (fun x : Nat => some (x + 3))
          (fun x => some (x * 2))).2 = Event.println line :: rest ∧
      (∃ pre post, line = pre ++ "500" ++ post) ∧ printlns rest = [] :=
  ((timeout_announcement exInput { timeout := some 500 } exImplTimeout rfl rfl
      (some 7) (fun x : Nat => some (x + 3)) (fun x => some (x * 2))
      (fun _ => none)).1 rfl).1

/-- Counterexample for C6: the attribute list
`timeout = 18446744073709551616` falls in none of the failure cases the
claim enumerates (the value is an integer literal and is present), yet
parsing fails, because `base10_parse::<u64>` rejects values above
`u64::MAX`. -/
theorem attr_parse_overflow_cex :
    (∀ p ∈ overflowPairs, specAttrFailureClaimed p = false) ∧
    PipelineAttributes.parse overflowPairs = Except.error AttrError.intParseFailed := by
  constructor
  · intro p hp
    simp only [overflowPairs, List.mem_singleton] at hp
    subst hp
    rfl
  · rfl

/-- C6 (amended): parsing succeeds exactly when no pair is `skip` with a
non-boolean-literal value, `timeout` with a non-integer-literal value,
`timeout` with no value, or `timeout` with an integer literal exceeding
`u64::MAX`; a bare `skip` sets `skip` to `true`, `skip = <bool>` sets it to
the literal's value, and `timeout = <int>` within range sets `timeout`. -/
theorem attr_parse_failure_characterization :
    (∀ pairs, (∃ a, PipelineAttributes.parse pairs = Except.ok a) ↔
      ∀ p ∈ pairs, specAttrFailure p = false) ∧
    (∀ a, parsePair a ("skip", none) = Except.ok { a with skip := true }) ∧
    (∀ a b, parsePair a ("skip", some (Expr.lit (Lit.bool b)))
      = Except.ok { a with skip := b }) ∧
    (∀ a n, n < 2 ^ 64 → parsePair a ("timeout", some (Expr.lit (Lit.int n)))
      = Except.ok { a with timeout := some n }) := by
  refine ⟨fun pairs => parseLoop_ok_iff pairs {}, fun a => rfl, fun a b => rfl,
    fun a n hn => ?_⟩
  rw [parsePair_eq]
  have hk : keyAction ("timeout", some (Expr.lit (Lit.int n)))
      = if n < 2 ^ 64 then KeyAction.setTimeout n
        else KeyAction.fail AttrError.intParseFailed := rfl
  rw [hk, if_pos hn]

/-- Witness for C6 (amended): a list with a bare `skip`, an unknown key and
a valid `timeout` parses successfully. -/
theorem attr_parse_failure_characterization_witness :
    ∃ a, PipelineAttributes.parse
        [("skip", none), ("foo", some (Expr.nonLit 0)),
         ("timeout", some (Expr.lit (Lit.int 500)))]
      = Except.ok a :=
  (attr_parse_failure_characterization.1
    [("skip", none), ("foo", some (Expr.nonLit 0)),
     ("timeout", some (Expr.lit (Lit.int 500)))]).mpr (by decide)

/-- C9: unrecognized attribute keys never cause a parse failure, are
retained in `others` in source order with their optional value expressions,
and affect neither parse success, the recognized attribute values, nor the
result of generation (which reads only `skip` and `timeout`). -/
theorem unknown_keys_inert :
    (∀ pairs b, PipelineAttributes.parse pairs = Except.ok b →
      b.others = pairs.filter fun p => !recognizedKey p) ∧
    (∀ pairs, (∃ b, PipelineAttributes.parse pairs = Except.ok b) ↔
      ∃ b, PipelineAttributes.parse (pairs.filter recognizedKey) = Except.ok b) ∧
    (∀ pairs b c, PipelineAttributes.parse pairs = Except.ok b →
      PipelineAttributes.parse (pairs.filter recognizedKey) = Except.ok c →
      c.skip = b.skip ∧ c.timeout = b.timeout) ∧
    (∀ input a1 a2, a1.skip = a2.skip → a1.timeout = a2.timeout →
      pipeline_derive input a1 = pipeline_derive input a2) := by
  refine ⟨?_, ?_, ?_, ?_⟩
  · intro pairs b h
    have := parseLoop_others_eq pairs false none [] b h
    simpa using this
  · intro pairs
    unfold PipelineAttributes.parse
    rw [parseLoop_filter_recognized pairs false none []]
    cases parseLoop ⟨false, none, []⟩ pairs <;> simp [exMap]
  · intro pairs b c hb hc
    unfold PipelineAttributes.parse at hb hc
    rw [parseLoop_filter_recognized pairs false none [], hb] at hc
    simp only [exMap, Except.ok.injEq] at hc
    subst hc
    exact ⟨rfl, rfl⟩
  · intro input a1 a2 h1 h2
    simp only [pipeline_derive, h1, h2]

/-- Witness for C9: `#[pipeline(foo = 1, skip)]` parses, the unknown pair is
retained, and `skip` is set. -/
theorem unknown_keys_inert_witness :
    PipelineAttributes.parse [("foo", some (Expr.lit (Lit.int 1))), ("skip", none)]
      = Except.ok { skip := true, timeout := none
                  , others := [("foo", some (Expr.lit (Lit.int 1)))] } ∧
    ({ skip := true, timeout := none
     , others := [("foo", some (Expr.lit (Lit.int 1)))] } : PipelineAttributes).others
      = [("foo", some (Expr.lit (Lit.int 1)))] :=
  ⟨rfl, unknown_keys_inert.1 [("foo", some (Expr.lit (Lit.int 1))), ("skip", none)]
    { skip := true, timeout := none
    , others := [("foo", some (Expr.lit (Lit.int 1)))] } rfl⟩

/-- C10: when a recognized key appears again later in the list with a valid
value, parsing still succeeds (no duplicate-key diagnostic) and the
rightmost occurrence overwrites the earlier value. -/
theorem recognized_key_last_wins (xs : List (String × Option Expr))
    (a : PipelineAttributes) (h : PipelineAttributes.parse xs = Except.ok a) :
    (∀ b, PipelineAttributes.parse (xs ++ [("skip", some (Expr.lit (Lit.bool b)))])
      = Except.ok { a with skip := b }) ∧
    (PipelineAttributes.parse (xs ++ [("skip", none)])
      = Except.ok { a with skip := true }) ∧
    (∀ n, n < 2 ^ 64 →
      PipelineAttributes.parse (xs ++ [("timeout", some (Expr.lit (Lit.int n)))])
        = Except.ok { a with timeout := some n }) := by
  unfold PipelineAttributes.parse at h ⊢
  refine ⟨fun b => ?_, ?_, fun n hn => ?_⟩ <;> rw [parseLoop_append, h]
  · rfl
  · rfl
  · show parseLoop a [("timeout", some (Expr.lit (Lit.int n)))] = _
    simp only [parseLoop, parsePair_eq]
    have hk : keyAction ("timeout", some (Expr.lit (Lit.int n)))
        = if n < 2 ^ 64 then KeyAction.setTimeout n
          else KeyAction.fail AttrError.intParseFailed := rfl
    rw [hk, if_pos hn]

/-- Witness for C10: with `skip = true` and `timeout = 5` already parsed, a
later `skip = false` overwrites the earlier `skip` without an error. -/
theorem recognized_key_last_wins_witness :
    PipelineAttributes.parse
        [("skip", some (Expr.lit (Lit.bool true))),
         ("timeout", some (Expr.lit (Lit.int 5))),
         ("skip", some (Expr.lit (Lit.bool false)))]
      = Except.ok { skip := false, timeout := some 5, others := [] } :=
  (recognized_key_last_wins
      [("skip", some (Expr.lit (Lit.bool true))),
       ("timeout", some (Expr.lit (Lit.int 5)))]
      { skip := true, timeout := some 5, others := [] } rfl).1 false

/-- Counterexample for C3: on `struct BadStruct { x: i32 }` (one named
field, not an `Option`), the proc-macro entry point in lib.rs panics instead
of returning a token stream or an error value. -/
theorem lib_derive_panics_cex :
    lib_pipeline_derive nonOptionInput
      = LibOutcome.panicked "Expected the field `x` to be of type Option<T>" := rfl

/-- C3 (amended): the attribute-aware generator always returns either an
emitted impl or an error diagnostic; the proc-macro entry point in lib.rs
panics exactly on inputs whose single named field lacks an identifier or has
a type from which no `Option` inner type can be extracted, and otherwise
returns tokens or a compile error. -/
theorem derive_outcome_characterization :
    (∀ input attrs, (∃ gi, pipeline_derive input attrs = Except.ok gi) ∨
      (∃ e, pipeline_derive input attrs = Except.error e)) ∧
    (∀ input, (∃ m, lib_pipeline_derive input = LibOutcome.panicked m) ↔
      ∃ f, input.data = Data.struct (Fields.named [f]) ∧
        (f.ident = none ∨
          ∃ fid, f.ident = some fid ∧ extract_option_inner f.ty = none)) := by
  constructor
  · intro input attrs
    cases h : pipeline_derive input attrs with
    | ok gi => exact Or.inl ⟨gi, rfl⟩
    | error e => exact Or.inr ⟨e, rfl⟩
  · intro input
    constructor
    · rintro ⟨m, hm⟩
      cases hd : input.data with
      | struct fs =>
        unfold lib_pipeline_derive at hm
        rw [hd] at hm
        cases fs with
        | named fl =>
          cases fl with
          | nil => exact LibOutcome.noConfusion hm
          | cons f rest =>
            cases rest with
            | nil =>
              cases hid : f.ident with
              | some fid =>
                simp only [hid] at hm
                cases hex : extract_option_inner f.ty with
                | some it =>
                  simp only [hex] at hm
                  exact LibOutcome.noConfusion hm
                | none => exact ⟨f, rfl, Or.inr ⟨fid, hid, hex⟩⟩
              | none => exact ⟨f, rfl, Or.inl hid⟩
            | cons f2 r2 => exact LibOutcome.noConfusion hm
        | unnamed n => exact LibOutcome.noConfusion hm
        | unit => exact LibOutcome.noConfusion hm
      | enum =>
        unfold lib_pipeline_derive at hm
        rw [hd] at hm
        exact LibOutcome.noConfusion hm
      | union =>
        unfold lib_pipeline_derive at hm
        rw [hd] at hm
        exact LibOutcome.noConfusion hm
    · rintro ⟨f, hd, hcase⟩
      unfold lib_pipeline_derive
      rw [hd]
      rcases hcase with hid | ⟨fid, hid, hex⟩
      · simp only [hid]
        exact ⟨_, rfl⟩
      · simp only [hid, hex]
        exact ⟨_, rfl⟩

/-- Witness for C3 (amended): `struct V { data: Vec<i32> }` satisfies the
panic characterization, so the lib.rs entry point panics on it. -/
theorem derive_outcome_characterization_witness :
    ∃ m, lib_pipeline_derive vecFieldInput = LibOutcome.panicked m :=
  (derive_outcome_characterization.2 vecFieldInput).mpr
    ⟨{ ident := some "data"
     , ty := Ty.path [PathSegment.mk "Vec" (PathArguments.angleBracketed
         [GenericArgument.type tyI32])] }, rfl, Or.inr ⟨"data", rfl, rfl⟩⟩

/-- Counterexample for C4: a field of type `Option<i32, i64>` carries two
generic arguments, not exactly one, yet generation succeeds, with the first
argument `i32` used as the inner type. -/
theorem option_two_args_accepted_cex :
    pipeline_derive twoArgInput {}
      = Except.ok
        { structName := "S"
        , generics := { params := [], whereClause := some [WherePredicate.cloneBound tyI32] }
        , fieldIdent := "value"
        , innerType := tyI32
        , skipStub := false
        , timeoutMsg := none } := rfl

/-- C4 (amended): for a well-shaped struct whose single named field's type
ends in an `Option` segment, generation succeeds if and only if the
segment's arguments are angle-bracketed and the FIRST argument is a concrete
type; that first argument is then the inner type used in the generated
signatures. Extra arguments after the first are ignored, not rejected. -/
theorem extract_inner_first_arg (input : DeriveInput) (attrs : PipelineAttributes)
    (f : Field) (fid : String) (segs : List PathSegment) (pargs : PathArguments)
    (hd : input.data = Data.struct (Fields.named [f]))
    (hid : f.ident = some fid) (hty : f.ty = Ty.path segs)
    (hlast : segs.getLast? = some (PathSegment.mk "Option" pargs)) :
    ((∃ gi, pipeline_derive input attrs = Except.ok gi) ↔
      ∃ args t, pargs = PathArguments.angleBracketed args ∧
        args.head? = some (GenericArgument.type t)) ∧
    (∀ gi args t, pipeline_derive input attrs = Except.ok gi →
      pargs = PathArguments.angleBracketed args →
      args.head? = some (GenericArgument.type t) → gi.innerType = t) := by
  have hred : pipeline_derive input attrs
      = (match extractInner f.ty with
        | Except.error e => Except.error e
        | Except.ok innerType =>
          Except.ok
            { structName := input.ident
            , generics := appendCloneBound input.generics innerType
            , fieldIdent := fid
            , innerType := innerType
            , skipStub := attrs.skip
            , timeoutMsg := attrs.timeout }) := by
    simp [pipeline_derive, hd, hid]
  cases pargs with
  | noArgs =>
    have hext : extractInner f.ty
        = Except.error ⟨Span.lastSegment, "Expected angle-bracketed generic arguments"⟩ := by
      rw [hty]
      simp [extractInner, hlast, PathSegment.ident, PathSegment.arguments]
    refine ⟨⟨?_, ?_⟩, ?_⟩
    · rintro ⟨gi, hgi⟩
      rw [hred, hext] at hgi
      exact Except.noConfusion hgi
    · rintro ⟨args, t, heq, -⟩
      exact PathArguments.noConfusion heq
    · intro gi args t hgi heq hh
      exact PathArguments.noConfusion heq
  | parenthesized =>
    have hext : extractInner f.ty
        = Except.error ⟨Span.lastSegment, "Expected angle-bracketed generic arguments"⟩ := by
      rw [hty]
      simp [extractInner, hlast, PathSegment.ident, PathSegment.arguments]
    refine ⟨⟨?_, ?_⟩, ?_⟩
    · rintro ⟨gi, hgi⟩
      rw [hred, hext] at hgi
      exact Except.noConfusion hgi
    · rintro ⟨args, t, heq, -⟩
      exact PathArguments.noConfusion heq
    · intro gi args t hgi heq hh
      exact PathArguments.noConfusion heq
  | angleBracketed args =>
    have hext : extractInner f.ty
        = (match args.head? with
          | some (GenericArgument.type t) => Except.ok t
          | _ => Except.error ⟨Span.angleArgs, "Expected Option<T> with concrete type"⟩) := by
      rw [hty]
      simp [extractInner, hlast, PathSegment.ident, PathSegment.arguments]
    cases hh : args.head? with
    | none =>
      refine ⟨⟨?_, ?_⟩, ?_⟩
      · rintro ⟨gi, hgi⟩
        rw [hred, hext, hh] at hgi
        exact Except.noConfusion hgi
      · rintro ⟨args', t, heq, hh'⟩
        injection heq with heq
        subst heq
        rw [hh] at hh'
        exact Option.noConfusion hh'
      · intro gi args' t hgi heq hh'
        injection heq with heq
        subst heq
        rw [hh] at hh'
        exact Option.noConfusion hh'
    | some ga =>
      cases ga with
      | type t0 =>
        refine ⟨⟨?_, ?_⟩, ?_⟩
        · intro h
          exact ⟨args, t0, rfl, hh⟩
        · intro h
          exact ⟨{ structName := input.ident
                 , generics := appendCloneBound input.generics t0
                 , fieldIdent := fid
                 , innerType := t0
                 , skipStub := attrs.skip
                 , timeoutMsg := attrs.timeout }, by rw [hred, hext, hh]⟩
        · intro gi args' t hgi heq hh'
          injection heq with heq
          subst heq
          rw [hh] at hh'
          injection hh' with hh'
          injection hh' with hh'
          subst hh'
          rw [hred, hext, hh] at hgi
          injection hgi with hgi
          subst hgi
          rfl
      | lifetime =>
        refine ⟨⟨?_, ?_⟩, ?_⟩
        · rintro ⟨gi, hgi⟩
          rw [hred, hext, hh] at hgi
          exact Except.noConfusion hgi
        · rintro ⟨args', t, heq, hh'⟩
          injection heq with heq
          subst heq
          rw [hh] at hh'
          injection hh' with hh'
          exact GenericArgument.noConfusion hh'
        · intro gi args' t hgi heq hh'
          injection heq with heq
          subst heq
          rw [hh] at hh'
          injection hh' with hh'
          exact GenericArgument.noConfusion hh'
      | constArg =>
        refine ⟨⟨?_, ?_⟩, ?_⟩
        · rintro ⟨gi, hgi⟩
          rw [hred, hext, hh] at hgi
          exact Except.noConfusion hgi
        · rintro ⟨args', t, heq, hh'⟩
          injection heq with heq
          subst heq
          rw [hh] at hh'
          injection hh' with hh'
          exact GenericArgument.noConfusion hh'
        · intro gi args' t hgi heq hh'
          injection heq with heq
          subst heq
          rw [hh] at hh'
          injection hh' with hh'
          exact GenericArgument.noConfusion hh'

/-- Witness for C4 (amended): the example struct's `Option<i32>` wrapper has
an angle-bracketed type first argument, so generation succeeds. -/
theorem extract_inner_first_arg_witness :
    ∃ gi, pipeline_derive exInput {} = Except.ok gi :=
  (extract_inner_first_arg exInput {} { ident := some "value", ty := tyOptionI32 }
      "value"
      [PathSegment.mk "Option" (PathArguments.angleBracketed [GenericArgument.type tyI32])]
      (PathArguments.angleBracketed [GenericArgument.type tyI32])
      rfl rfl rfl rfl).1.mpr
    ⟨[GenericArgument.type tyI32], tyI32, rfl, rfl⟩

/-- Counterexample for C5: violations of check (a) (an enum) and check (b)
(a tuple struct) produce the SAME message, not distinct ones; and a
violation of check (e) as the claim states it (`Option<i32, i64>`, two
generic arguments instead of one) produces no error at all. -/
theorem shape_errors_cex :
    pipeline_derive enumInput {}
      = Except.error ⟨Span.structName, "Expected a struct with named fields"⟩ ∧
    pipeline_derive tupleInput {}
      = Except.error ⟨Span.structName, "Expected a struct with named fields"⟩ ∧
    pipeline_derive extraArgInput {}
      = Except.ok
        { structName := "W"
        , generics := { params := [], whereClause := some [WherePredicate.cloneBound tyI64] }
        , fieldIdent := "data"
        , innerType := tyI64
        , skipStub := false
        , timeoutMsg := none } :=
  ⟨rfl, rfl, rfl⟩

/-- C5 (amended): shape validation checks the conditions in order, each
failing check producing an error attributed to the struct name or to the
field's syntax, with no methods emitted; checks (a) and (b) share the single
message "Expected a struct with named fields" (one pattern match handles
both), check (c) has its own message, check (d) reports "Expected field of
type Option<T>" (at the field type or its last segment) or "Malformed type
path in field type", and check (e) requires angle-bracketed arguments whose
FIRST argument is a concrete type, with a distinct message for each of those
two sub-checks. -/
theorem shape_validation_order :
    (∀ input attrs, (∀ fields, input.data ≠ Data.struct (Fields.named fields)) →
      pipeline_derive input attrs
        = Except.error ⟨Span.structName, "Expected a struct with named fields"⟩) ∧
    (∀ input attrs fields, input.data = Data.struct (Fields.named fields) →
      fields.length ≠ 1 →
      pipeline_derive input attrs
        = Except.error ⟨Span.structName, "Expected a struct with exactly one named field"⟩) ∧
    (∀ input attrs f fid tag, input.data = Data.struct (Fields.named [f]) →
      f.ident = some fid → f.ty = Ty.notPath tag →
      pipeline_derive input attrs
        = Except.error ⟨Span.fieldTy, "Expected field of type Option<T>"⟩) ∧
    (∀ input attrs f fid, input.data = Data.struct (Fields.named [f]) →
      f.ident = some fid → f.ty = Ty.path [] →
      pipeline_derive input attrs
        = Except.error ⟨Span.fieldTy, "Malformed type path in field type"⟩) ∧
    (∀ input attrs f fid segs seg, input.data = Data.struct (Fields.named [f]) →
      f.ident = some fid → f.ty = Ty.path segs → segs.getLast? = some seg →
      seg.ident ≠ "Option" →
      pipeline_derive input attrs
        = Except.error ⟨Span.lastSegment, "Expected field of type Option<T>"⟩) ∧
    (∀ input attrs f fid segs pargs, input.data = Data.struct (Fields.named [f]) →
      f.ident = some fid → f.ty = Ty.path segs →
      segs.getLast? = some (PathSegment.mk "Option" pargs) →
      (pargs = PathArguments.noArgs ∨ pargs = PathArguments.parenthesized) →
      pipeline_derive input attrs
        = Except.error ⟨Span.lastSegment, "Expected angle-bracketed generic arguments"⟩) ∧
    (∀ input attrs f fid segs args, input.data = Data.struct (Fields.named [f]) →
      f.ident = some fid → f.ty = Ty.path segs →
      segs.getLast? = some (PathSegment.mk "Option" (PathArguments.angleBracketed args)) →
      (∀ t, args.head? ≠ some (GenericArgument.type t)) →
      pipeline_derive input attrs
        = Except.error ⟨Span.angleArgs, "Expected Option<T> with concrete type"⟩) := by
  refine ⟨?_, ?_, ?_, ?_, ?_, ?_, ?_⟩
  · intro input attrs h
    cases hd : input.data with
    | struct fs =>
      cases fs with
      | named fl => exact absurd hd (h fl)
      | unnamed n => simp [pipeline_derive, hd]
      | unit => simp [pipeline_derive, hd]
    | enum => simp [pipeline_derive, hd]
    | union => simp [pipeline_derive, hd]
  · intro input attrs fields hd hlen
    cases fields with
    | nil => simp [pipeline_derive, hd]
    | cons f rest =>
      cases rest with
      | nil => exact absurd rfl hlen
      | cons g r => simp [pipeline_derive, hd]
  · intro input attrs f fid tag hd hid hty
    simp [pipeline_derive, hd, hid, extractInner, hty]
  · intro input attrs f fid hd hid hty
    simp [pipeline_derive, hd, hid, extractInner, hty]
  · intro input attrs f fid segs seg hd hid hty hlast hopt
    simp [pipeline_derive, hd, hid, extractInner, hty, hlast, hopt]
  · intro input attrs f fid segs pargs hd hid hty hlast harg
    rcases harg with rfl | rfl <;>
      simp [pipeline_derive, hd, hid, extractInner, hty, hlast,
        PathSegment.ident, PathSegment.arguments]
  · intro input attrs f fid segs args hd hid hty hlast hh
    cases hh2 : args.head? with
    | none =>
      simp [pipeline_derive, hd, hid, extractInner, hty, hlast,
        PathSegment.ident, PathSegment.arguments, hh2]
    | some ga =>
      cases ga with
      | type t => exact absurd hh2 (hh t)
      | lifetime =>
        simp [pipeline_derive, hd, hid, extractInner, hty, hlast,
          PathSegment.ident, PathSegment.arguments, hh2]
      | constArg =>
        simp [pipeline_derive, hd, hid, extractInner, hty, hlast,
          PathSegment.ident, PathSegment.arguments, hh2]

/-- Witness for C5 (amended): a struct with two named fields fails check
(c) with the "exactly one named field" message at the struct name. -/
theorem shape_validation_order_witness :
    pipeline_derive twoFieldInput {}
      = Except.error ⟨Span.structName, "Expected a struct with exactly one named field"⟩ :=
  shape_validation_order.2.1 twoFieldInput {}
    [{ ident := some "data", ty := tyOptionI32 }, { ident := some "info", ty := tyOptionI32 }]
    rfl (by decide)

end PipelineDerive
